import Mathlib

/-!
Shallow embedding of the two scripts of this repository:
`src/scripts/flow_extractor.py` (the `FlowSummarizer` mitmproxy addon) and
`src/analyze_logs.py` (the log inspector).  Python JSON values are modelled
by `JValue`, Python exceptions by `Option`/abort results, Python dicts by
insertion-ordered association lists.
-/

/-- Parsed JSON values as produced by Python's `json.loads`: JSON `null`
maps to Python `None`, objects to insertion-ordered dicts with unique keys. -/
inductive JValue where
  | null
  | bool (b : Bool)
  | num (n : Int)
  | str (s : String)
  | arr (elems : List JValue)
  | obj (fields : List (String × JValue))

/-- Python truthiness of a JSON-derived value (`if x:`). -/
def JValue.truthy : JValue → Bool
  | .null => false
  | .bool b => b
  | .num n => n != 0
  | .str s => !s.isEmpty
  | .arr es => !es.isEmpty
  | .obj fs => !fs.isEmpty

/-- `pat` is an initial run of `s` (character lists). -/
def leadsWith : List Char → List Char → Bool
  | [], _ => true
  | _ :: _, [] => false
  | p :: ps, c :: cs => p == c && leadsWith ps cs

/-- `pat` occurs as a contiguous run somewhere in `s` (character lists). -/
def charsContain (pat : List Char) : List Char → Bool
  | [] => pat.isEmpty
  | c :: cs => leadsWith pat (c :: cs) || charsContain pat cs

/-- Python's substring test `pat in s`. -/
def strContains (s pat : String) : Bool := charsContain pat.data s.data

/-- Python `d.get(k)` on a dict: `None` when the key is absent. -/
def dictGet (fs : List (String × JValue)) (k : String) : JValue :=
  (fs.lookup k).getD .null

/-- Python `k in v` for a string key `k`: key test on dicts, substring test
on strings, `==`-membership on lists; `none` models the `TypeError` raised
on numbers, booleans and `None`. -/
def pyInOp (k : String) : JValue → Option Bool
  | .obj fs => some (fs.lookup k).isSome
  | .str s => some (strContains s k)
  | .arr es => some (es.any fun e => match e with | .str t => t == k | _ => false)
  | _ => none

/-- Python `v[k]` for a string key: dict indexing; `none` models `KeyError`
on a missing key and `TypeError` on every non-dict value. -/
def pySubscript (v : JValue) (k : String) : Option JValue :=
  match v with
  | .obj fs => fs.lookup k
  | _ => none

/-- Python `v.get(k)`: `none` models the `AttributeError` raised when `v`
is not a dict. -/
def pyDictGet (v : JValue) (k : String) : Option JValue :=
  match v with
  | .obj fs => some (dictGet fs k)
  | _ => none

/-- Python `v.get(k, dflt)`: `none` models the `AttributeError` raised when
`v` is not a dict. -/
def pyDictGetD (v : JValue) (k : String) (dflt : JValue) : Option JValue :=
  match v with
  | .obj fs => some ((fs.lookup k).getD dflt)
  | _ => none

/-- One record of `self.graphql_calls`; `operationName`, `sha256Hash` and
`vars` hold `.null` where the Python code stores `None`.  The field `vars`
models the Python record key `variables` (a reserved word here). -/
structure CallRecord where
  host : String
  operationName : JValue
  path : String
  sha256Hash : JValue
  vars : JValue

/-- Result of `flow.request.get_text()` followed by `json.loads`:
`empty` for a falsy body (`None` or `""`), `invalid` for text that raises
on parsing, `json v` for text that parses to `v`. -/
inductive Body where
  | empty
  | invalid
  | json (v : JValue)

/-- The parts of a mitmproxy flow read by `FlowSummarizer.response`. -/
structure HTTPFlow where
  pretty_host : String
  method : String
  url : String
  path : String
  body : Body

/-- `FlowSummarizer._process_graphql_item`: `none` models an exception
escaping to the caller (before any record is appended); `some r` is the
record appended to `self.graphql_calls`. -/
def process_graphql_item (fl : HTTPFlow) (item : JValue) : Option CallRecord :=
  match item with
  | .obj fs =>
    let operation_name := dictGet fs "operationName"
    let vars := dictGet fs "variables"
    let extensions := dictGet fs "extensions"
    let sha? : Option JValue :=
      if extensions.truthy then
        match pyInOp "persistedQuery" extensions with
        | none => none
        | some false => some .null
        | some true =>
          match pySubscript extensions "persistedQuery" with
          | none => none
          | some pq => pyDictGet pq "sha256Hash"
      else some .null
    match sha? with
    | none => none
    | some sha256_hash =>
      some { host := fl.pretty_host, operationName := operation_name,
             path := fl.path, sha256Hash := sha256_hash, vars := vars }
  | _ => none

/-- The `for item in data:` loop of `FlowSummarizer.response`: an exception
on one item aborts the loop, keeping the records of the earlier items. -/
def process_graphql_list (fl : HTTPFlow) : List JValue → List CallRecord
  | [] => []
  | item :: rest =>
    match process_graphql_item fl item with
    | some r => r :: process_graphql_list fl rest
    | none => []

/-- In-memory state of a `FlowSummarizer` instance.  The tallies are
insertion-ordered association lists, mirroring Python dicts. -/
structure SummarizerState where
  endpoints : List (String × Nat)
  graphql_calls : List CallRecord
  hosts : List (String × Nat)
  output_path : String

/-- Python `d[k] = d.get(k, 0) + 1`: update the entry in place when the key
exists, append `(k, 1)` at the end otherwise. -/
def tallyBump : List (String × Nat) → String → List (String × Nat)
  | [], k => [(k, 1)]
  | p :: ps, k => if p.1 == k then (p.1, p.2 + 1) :: ps else p :: tallyBump ps k

/-- Python `d.get(k, 0)`. -/
def tallyGet : List (String × Nat) → String → Nat
  | [], _ => 0
  | p :: ps, k => if p.1 == k then p.2 else tallyGet ps k

/-- `FlowSummarizer.__init__`, with `env` modelling `os.environ.get`. -/
def FlowSummarizer.init (env : String → Option String) : SummarizerState :=
  { endpoints := [], graphql_calls := [], hosts := [],
    output_path := (env "SUMMARY_OUTPUT_PATH").getD "summary.json" }

/-- `FlowSummarizer.response`.  The function is total: the `try/except`
around the GraphQL inspection is baked in, so no exception reaches the
caller for any body. -/
def FlowSummarizer.response (st : SummarizerState) (fl : HTTPFlow) : SummarizerState :=
  let endpoint_key := fl.method ++ " " ++ fl.url
  let st1 : SummarizerState :=
    { st with hosts := tallyBump st.hosts fl.pretty_host,
              endpoints := tallyBump st.endpoints endpoint_key }
  if strContains fl.path "/graphql" then
    match fl.body with
    | .empty => st1
    | .invalid => st1
    | .json data =>
      match data with
      | .arr items =>
        { st1 with graphql_calls := st1.graphql_calls ++ process_graphql_list fl items }
      | v =>
        match process_graphql_item fl v with
        | some r => { st1 with graphql_calls := st1.graphql_calls ++ [r] }
        | none => st1
  else st1

/-- The summary object assembled by `FlowSummarizer.done`. -/
structure Summary where
  endpoints : List (String × Nat)
  graphql_calls : List CallRecord
  hosts : List (String × Nat)

/-- Python's comparison of `(key, value)` tuples, as used by
`sorted(d.items())`: lexicographic on the pair. -/
def pairLe (a b : String × Nat) : Prop := a.1 < b.1 ∨ (a.1 = b.1 ∧ a.2 ≤ b.2)

instance : DecidableRel pairLe := fun a b => by
  unfold pairLe; exact inferInstance

instance : IsTotal (String × Nat) pairLe := by
  constructor
  intro a b
  rcases lt_trichotomy a.1 b.1 with h | h | h
  · exact Or.inl (Or.inl h)
  · rcases Nat.le_total a.2 b.2 with h2 | h2
    · exact Or.inl (Or.inr ⟨h, h2⟩)
    · exact Or.inr (Or.inr ⟨h.symm, h2⟩)
  · exact Or.inr (Or.inl h)

instance : IsTrans (String × Nat) pairLe := by
  constructor
  intro a b c hab hbc
  rcases hab with h1 | ⟨h1, h1'⟩
  · rcases hbc with h2 | ⟨h2, _⟩
    · exact Or.inl (lt_trans h1 h2)
    · exact Or.inl (h2 ▸ h1)
  · rcases hbc with h2 | ⟨h2, h2'⟩
    · exact Or.inl (h1 ▸ h2)
    · exact Or.inr ⟨h1.trans h2, le_trans h1' h2'⟩

/-- `FlowSummarizer.done`: both tallies re-expressed with sorted keys, the
call records kept in observation order. -/
def FlowSummarizer.done (st : SummarizerState) : Summary :=
  { endpoints := List.insertionSort pairLe st.endpoints,
    graphql_calls := st.graphql_calls,
    hosts := List.insertionSort pairLe st.hosts }

/-- The single `open(self.output_path, "w")` + `json.dump` of `done`,
acting on a file system modelled as a map from path to content. -/
def writeSummary (fs : String → Option Summary) (st : SummarizerState) :
    String → Option Summary :=
  fun p => if p = st.output_path then some (FlowSummarizer.done st) else fs p

/-!
Embedding of `src/analyze_logs.py`, the log inspector.  A run is a pair
`(output, crashed)`: the `print` calls executed (as structured lines) and
whether an uncaught exception aborted the run.  The JSON parse step
`json.loads` is a parameter `loads`; `none` models `json.JSONDecodeError`.
-/

/-- One executed `print` call of the log inspector, with the arguments that
determine the printed line. -/
inductive OutLine where
  | found (n : Nat)
  | component (idx : Nat) (typename : JValue)
  | fieldList (key : String) (n : Nat)
  | fieldDict (key : String)
  | fieldScalar (key : String) (val : JValue)
  | decodeError

/-- The marker substring searched for in each line. -/
def markerStr : String := "DEBUG: entryPoint(home-page) response:"

/-- The `for line in f:` scan with `break`: the first line containing the
marker, if any. -/
def findMarkerLine : List String → Option String
  | [] => none
  | l :: ls => if strContains l markerStr then some l else findMarkerLine ls

/-- Python `s.split(sep, 1)` when `sep` occurs: the text before the first
occurrence and everything after it; `none` when `sep` does not occur. -/
def splitFirst (sep : List Char) : List Char → Option (List Char × List Char)
  | [] => none
  | c :: cs =>
    if leadsWith sep (c :: cs) then some ([], (c :: cs).drop sep.length)
    else
      match splitFirst sep cs with
      | some (before, post) => some (c :: before, post)
      | none => none

/-- Python `s.strip()` restricted to ASCII whitespace. -/
def pyStrip (cs : List Char) : List Char :=
  ((cs.dropWhile Char.isWhitespace).reverse.dropWhile Char.isWhitespace).reverse

/-- `line.split("response: ", 1)[1].strip()`: `none` models the
`IndexError` raised when `"response: "` does not occur in the line. -/
def payloadOf (line : String) : Option String :=
  match splitFirst "response: ".data line.data with
  | none => none
  | some (_, post) => some (String.mk (pyStrip post))

/-- The navigation
`data.get("data", {}).get("nativeEntryPoint", {}).get("visualComponents", [])`:
`none` models the `AttributeError` raised when an intermediate value is not
a dict. -/
def componentsOf (data : JValue) : Option JValue := do
  let d1 ← pyDictGetD data "data" (.obj [])
  let d2 ← pyDictGetD d1 "nativeEntryPoint" (.obj [])
  pyDictGetD d2 "visualComponents" (.arr [])

/-- Python `len(v)`: `none` models the `TypeError` on unsized values. -/
def pyLen : JValue → Option Nat
  | .str s => some s.length
  | .arr es => some es.length
  | .obj fs => some fs.length
  | _ => none

/-- Python iteration over `v` (`enumerate(v)`): elements of a list,
single-character strings of a string, keys of a dict. -/
def pyIter : JValue → List JValue
  | .arr es => es
  | .str s => s.data.map (fun c => .str (String.mk [c]))
  | .obj fs => fs.map (fun p => .str p.1)
  | _ => []

/-- The per-field `print` of the component loop: list length, `(dict)`
marker, or the (possibly truncated) scalar rendering. -/
def describeField (k : String) : JValue → OutLine
  | .arr es => .fieldList k es.length
  | .obj _ => .fieldDict k
  | v => .fieldScalar k v

/-- The body of one iteration of `for i, comp in enumerate(components):`;
`none` models the `AttributeError` of `comp.get` on a non-dict `comp`,
raised before anything of this component is printed. -/
def printComp (i : Nat) (comp : JValue) : Option (List OutLine) :=
  match comp with
  | .obj fs =>
    some (.component i ((fs.lookup "__typename").getD (.str "Unknown")) ::
          fs.map (fun p => describeField p.1 p.2))
  | _ => none

/-- The component loop: output of the iterations run so far, and whether an
exception aborted the loop. -/
def printComps (i : Nat) : List JValue → List OutLine × Bool
  | [] => ([], false)
  | c :: cs =>
    match printComp i c with
    | none => ([], true)
    | some ls =>
      let r := printComps (i + 1) cs
      (ls ++ r.1, r.2)

/-- Everything after a successful `json.loads`: field navigation, the
`Found N components:` line, then the component loop. -/
def afterParse (data : JValue) : List OutLine × Bool :=
  match componentsOf data with
  | none => ([], true)
  | some comps =>
    match pyLen comps with
    | none => ([], true)
    | some n =>
      let r := printComps 1 (pyIter comps)
      (.found n :: r.1, r.2)

/-- Processing of the matched line: payload extraction, `json.loads`
(with `json.JSONDecodeError` caught and reported), then `afterParse`. -/
def processLine (loads : String → Option JValue) (line : String) :
    List OutLine × Bool :=
  match payloadOf line with
  | none => ([], true)
  | some js =>
    match loads js with
    | none => ([.decodeError], false)
    | some data => afterParse data

/-- The whole log-inspector run on the lines of the log file. -/
def runAnalyzer (loads : String → Option JValue) (lines : List String) :
    List OutLine × Bool :=
  match findMarkerLine lines with
  | none => ([], false)
  | some line => processLine loads line

/-- `response` iterated `n` times on one and the same flow. -/
def respN (st : SummarizerState) (fl : HTTPFlow) : Nat → SummarizerState
  | 0 => st
  | n + 1 => FlowSummarizer.response (respN st fl n) fl

/-- Predicate on a batched-array item under which `_process_graphql_item`
completes without an exception: the item is an object and its `extensions`
entry is either falsy or an object whose `persistedQuery` entry, when
present, is itself an object. -/
def itemWF : JValue → Bool
  | .obj fs =>
    (match (fs.lookup "extensions").getD .null with
     | .obj efs =>
       (match efs.lookup "persistedQuery" with
        | some (.obj _) => true
        | some _ => false
        | none => true)
     | .null => true
     | .bool b => !b
     | .num n => n == 0
     | .str s => s.isEmpty
     | .arr es => es.isEmpty)
  | _ => false

/-- Spec-side field extraction: the value at key `k`, `null` when the key
is absent or the value is not an object.  Used only to state what the spec
says a call record carries. -/
def jGet : JValue → String → JValue
  | .obj fs, k => (fs.lookup k).getD .null
  | _, _ => .null

/-- Spec-side description of one call record, following the spec's words:
the item's `operationName` and `variables`, the hash nested under
`extensions.persistedQuery.sha256Hash` (null when absent), together with
the flow's host and path. -/
def specCallRecord (fl : HTTPFlow) (item : JValue) : CallRecord :=
  { host := fl.pretty_host
    operationName := jGet item "operationName"
    path := fl.path
    sha256Hash := jGet (jGet (jGet item "extensions") "persistedQuery") "sha256Hash"
    vars := jGet item "variables" }

/-- Recognizer for the `component` output line. -/
def OutLine.isComp : OutLine → Bool
  | .component _ _ => true
  | _ => false

/-- Number of fields printed for one component: all the fields of a dict
component. -/
def numFields : JValue → Nat
  | .obj fs => fs.length
  | _ => 0

/-- Structures of a parsed payload on which the log inspector raises an
uncaught exception: a non-dict (including null) met by `.get` during the
field navigation, an unsized `visualComponents` value, or a non-dict entry
of the components list. -/
def badShape (data : JValue) : Prop :=
  componentsOf data = none ∨
  (∃ v, componentsOf data = some v ∧ pyLen v = none) ∨
  (∃ comps c, componentsOf data = some (JValue.arr comps) ∧ c ∈ comps ∧
    ∀ fs, c ≠ JValue.obj fs)

/-- The records one `response` call appends, as a function of the flow
alone (a derived characterization, used by the lemmas below). -/
def newCalls (fl : HTTPFlow) : List CallRecord :=
  if strContains fl.path "/graphql" then
    match fl.body with
    | .empty => []
    | .invalid => []
    | .json data =>
      match data with
      | .arr items => process_graphql_list fl items
      | v =>
        match process_graphql_item fl v with
        | some r => [r]
        | none => []
  else []

/-- A non-GraphQL flow used to witness C7. -/
def c7Flow : HTTPFlow :=
  { pretty_host := "a", method := "GET", url := "http://a/x", path := "/x",
    body := .empty }

/-- The first flow of the C4 example: `GET http://a/x` on host `a`. -/
def c4FlowA : HTTPFlow :=
  { pretty_host := "a", method := "GET", url := "http://a/x", path := "/x",
    body := .empty }

/-- The third flow of the C4 example: `POST http://b/y` on host `b`. -/
def c4FlowB : HTTPFlow :=
  { pretty_host := "b", method := "POST", url := "http://b/y", path := "/y",
    body := .empty }

/-- The flow refuting C1 as stated: a `/graphql` request whose body is a
JSON array of one object, but that object's `extensions.persistedQuery`
value is the number `5`, so `extensions["persistedQuery"].get(...)`
raises and no record is appended. -/
def c1BadFlow : HTTPFlow :=
  { pretty_host := "h", method := "POST", url := "http://h/graphql",
    path := "/graphql",
    body := .json (.arr [.obj [("extensions", .obj [("persistedQuery", .num 5)])]]) }

/-- A well-formed two-operation batched GraphQL flow used to witness C1. -/
def c1GoodFlow : HTTPFlow :=
  { pretty_host := "h", method := "POST", url := "http://h/graphql",
    path := "/graphql",
    body := .json (.arr [
      .obj [("operationName", .str "Op1"), ("variables", .obj [("x", .num 1)]),
            ("extensions", .obj [("persistedQuery",
              .obj [("version", .num 1), ("sha256Hash", .str "abc")])])],
      .obj []]) }

/-- A batched flow whose middle item is the malformed (non-object) `3`:
the first item yields a record, the third is never reached. -/
def c10Flow : HTTPFlow :=
  { pretty_host := "h", method := "POST", url := "http://h/graphql",
    path := "/graphql",
    body := .json (.arr [.obj [("operationName", .str "A")], .num 3,
      .obj [("operationName", .str "B")]]) }

/-- The log line and parser of the C6 counterexample: one component whose
only field is the variant tag `__typename`. -/
def c6CexLines : List String := ["DEBUG: entryPoint(home-page) response: PAYLOAD6"]

/-- Parser for the C6 counterexample payload. -/
def c6CexLoads : String → Option JValue :=
  fun s =>
    if s = "PAYLOAD6" then
      some (.obj [("data", .obj [("nativeEntryPoint", .obj [("visualComponents",
        .arr [.obj [("__typename", .str "Tile")]])])])])
    else none

/-- Log and parser of the C6 witness: two object components. -/
def c6WitLines : List String := ["DEBUG: entryPoint(home-page) response: PAYLOAD6W"]

/-- Parser for the C6 witness payload. -/
def c6WitLoads : String → Option JValue :=
  fun s =>
    if s = "PAYLOAD6W" then
      some (.obj [("data", .obj [("nativeEntryPoint", .obj [("visualComponents",
        .arr [.obj [("__typename", .str "Hero"), ("items", .arr [.num 1, .num 2])],
              .obj []])])])])
    else none

/-- Log and parser of the C9 witness: the `data` field is present with the
value `null`, so `.get("nativeEntryPoint")` is called on `None`. -/
def c9WitLines : List String := ["DEBUG: entryPoint(home-page) response: PAYLOAD9W"]

/-- Parser for the C9 witness payload. -/
def c9WitLoads : String → Option JValue :=
  fun s => if s = "PAYLOAD9W" then some (.obj [("data", .null)]) else none

/-- Log and parser of the C9 counterexample: `visualComponents` is present
with the non-dict value `""`. -/
def c9CexLines : List String := ["DEBUG: entryPoint(home-page) response: PAYLOAD9C"]

/-- Parser for the C9 counterexample payload. -/
def c9CexLoads : String → Option JValue :=
  fun s =>
    if s = "PAYLOAD9C" then
      some (.obj [("data", .obj [("nativeEntryPoint",
        .obj [("visualComponents", .str "")])])])
    else none

/-! Helper lemmas. -/

theorem tallyGet_bump_self (m : List (String × Nat)) (k : String) :
    tallyGet (tallyBump m k) k = tallyGet m k + 1 := by
  induction m with
  | nil => simp [tallyBump, tallyGet]
  | cons p ps ih =>
    obtain ⟨a, b⟩ := p
    by_cases h : a = k
    · subst h
      simp [tallyBump, tallyGet]
    · simp [tallyBump, tallyGet, h]
      exact ih

theorem tallyGet_bump_other (m : List (String × Nat)) (k k' : String)
    (h : k' ≠ k) : tallyGet (tallyBump m k) k' = tallyGet m k' := by
  induction m with
  | nil => simp [tallyBump, tallyGet, Ne.symm h]
  | cons p ps ih =>
    obtain ⟨a, b⟩ := p
    by_cases ha : a = k
    · subst ha
      simp [tallyBump, tallyGet, h, Ne.symm h]
    · by_cases ha' : a = k'
      · subst ha'
        simp [tallyBump, tallyGet, ha, Ne.symm h]
      · simp [tallyBump, tallyGet, ha, ha']
        exact ih

theorem tallyGet_bump_le (m : List (String × Nat)) (k k' : String) :
    tallyGet m k' ≤ tallyGet (tallyBump m k) k' := by
  by_cases h : k' = k
  · subst h
    rw [tallyGet_bump_self]
    exact Nat.le_succ _
  · rw [tallyGet_bump_other m k k' h]

theorem response_hosts (st : SummarizerState) (fl : HTTPFlow) :
    (FlowSummarizer.response st fl).hosts = tallyBump st.hosts fl.pretty_host := by
  unfold FlowSummarizer.response
  repeat' split
  all_goals rfl

theorem response_endpoints (st : SummarizerState) (fl : HTTPFlow) :
    (FlowSummarizer.response st fl).endpoints
      = tallyBump st.endpoints (fl.method ++ " " ++ fl.url) := by
  unfold FlowSummarizer.response
  repeat' split
  all_goals rfl

theorem response_output_path (st : SummarizerState) (fl : HTTPFlow) :
    (FlowSummarizer.response st fl).output_path = st.output_path := by
  unfold FlowSummarizer.response
  repeat' split
  all_goals rfl

theorem response_calls (st : SummarizerState) (fl : HTTPFlow) :
    (FlowSummarizer.response st fl).graphql_calls = st.graphql_calls ++ newCalls fl := by
  unfold FlowSummarizer.response newCalls
  by_cases hp : strContains fl.path "/graphql"
  · simp only [hp, if_true]
    rcases hb : fl.body with _ | _ | v
    · simp [hb]
    · simp [hb]
    · simp only [hb]
      rcases v with _ | b | n | s | es | fs <;>
        first
          | (simp; done)
          | (simp only []; split <;> simp_all)
  · simp [hp]

theorem keys_sorted_insertionSort (m : List (String × Nat)) :
    List.Pairwise (fun a b : String × Nat => a.1 ≤ b.1) (List.insertionSort pairLe m) := by
  have hs := List.sorted_insertionSort pairLe m
  exact List.Pairwise.imp
    (fun hab => hab.elim le_of_lt (fun hc => le_of_eq hc.1)) hs

/-! Claim theorems. -/

/-- C2: for every state, flow and request body -- including non-JSON text
and malformed GraphQL payloads -- `response` raises nothing to its caller
(the embedded function is total, the code's blanket `except` swallowing
every error of the GraphQL inspection), and the host and endpoint tallies
are updated exactly as for a well-formed body: whatever the body, the
flow's host entry and `"METHOD URL"` entry each grow by one. -/
theorem C2_response_never_raises (st : SummarizerState) (fl : HTTPFlow) :
    (FlowSummarizer.response st fl).hosts = tallyBump st.hosts fl.pretty_host ∧
    (FlowSummarizer.response st fl).endpoints
      = tallyBump st.endpoints (fl.method ++ " " ++ fl.url) ∧
    tallyGet (FlowSummarizer.response st fl).hosts fl.pretty_host
      = tallyGet st.hosts fl.pretty_host + 1 ∧
    tallyGet (FlowSummarizer.response st fl).endpoints (fl.method ++ " " ++ fl.url)
      = tallyGet st.endpoints (fl.method ++ " " ++ fl.url) + 1 :=
  ⟨response_hosts st fl, response_endpoints st fl,
   by rw [response_hosts]; exact tallyGet_bump_self _ _,
   by rw [response_endpoints]; exact tallyGet_bump_self _ _⟩

/-- C5: every endpoint and host count is monotonically non-decreasing
across a `response` call, and the call-record sequence before the call is
an initial segment of the sequence after it (records are only appended). -/
theorem C5_tallies_monotone_calls_append (st : SummarizerState) (fl : HTTPFlow)
    (k : String) :
    tallyGet st.endpoints k ≤ tallyGet (FlowSummarizer.response st fl).endpoints k ∧
    tallyGet st.hosts k ≤ tallyGet (FlowSummarizer.response st fl).hosts k ∧
    ∃ t, (FlowSummarizer.response st fl).graphql_calls = st.graphql_calls ++ t :=
  ⟨by rw [response_endpoints]; exact tallyGet_bump_le _ _ _,
   by rw [response_hosts]; exact tallyGet_bump_le _ _ _,
   ⟨newCalls fl, response_calls st fl⟩⟩

/-- C7: for a flow whose request path does not contain `/graphql`,
`response` leaves the call-record sequence and the output path unchanged,
bumps exactly the flow's `"METHOD URL"` endpoint entry and host entry, and
touches no other tally entry. -/
theorem C7_non_graphql_frame (st : SummarizerState) (fl : HTTPFlow)
    (h : strContains fl.path "/graphql" = false) :
    (FlowSummarizer.response st fl).graphql_calls = st.graphql_calls ∧
    (FlowSummarizer.response st fl).output_path = st.output_path ∧
    (FlowSummarizer.response st fl).endpoints
      = tallyBump st.endpoints (fl.method ++ " " ++ fl.url) ∧
    (FlowSummarizer.response st fl).hosts = tallyBump st.hosts fl.pretty_host ∧
    (∀ k, k ≠ fl.method ++ " " ++ fl.url →
      tallyGet (FlowSummarizer.response st fl).endpoints k = tallyGet st.endpoints k) ∧
    (∀ k, k ≠ fl.pretty_host →
      tallyGet (FlowSummarizer.response st fl).hosts k = tallyGet st.hosts k) := by
  refine ⟨?_, response_output_path st fl, response_endpoints st fl,
    response_hosts st fl, ?_, ?_⟩
  · rw [response_calls st fl]
    simp [newCalls, h]
  · intro k hk
    rw [response_endpoints]
    exact tallyGet_bump_other _ _ _ hk
  · intro k hk
    rw [response_hosts]
    exact tallyGet_bump_other _ _ _ hk

/-- Witness for C7 at a concrete non-GraphQL flow. -/
theorem C7_non_graphql_frame_witness :
    strContains c7Flow.path "/graphql" = false ∧
    (FlowSummarizer.response (FlowSummarizer.init fun _ => none) c7Flow).graphql_calls
      = (FlowSummarizer.init fun _ => none).graphql_calls :=
  ⟨by decide,
   (C7_non_graphql_frame (FlowSummarizer.init fun _ => none) c7Flow (by decide)).1⟩

/-- C4: the three-flow example yields hosts `a ↦ 2, b ↦ 1` and endpoints
`GET http://a/x ↦ 2, POST http://b/y ↦ 1`; and in general delivering `n`
identical requests from a fresh state yields tally value `n` for that
request's `"METHOD URL"` key and host key. -/
theorem C4_example_and_repeat_tally :
    (FlowSummarizer.response (FlowSummarizer.response (FlowSummarizer.response
        (FlowSummarizer.init fun _ => none) c4FlowA) c4FlowA) c4FlowB).hosts
      = [("a", 2), ("b", 1)] ∧
    (FlowSummarizer.response (FlowSummarizer.response (FlowSummarizer.response
        (FlowSummarizer.init fun _ => none) c4FlowA) c4FlowA) c4FlowB).endpoints
      = [("GET http://a/x", 2), ("POST http://b/y", 1)] ∧
    ∀ (env : String → Option String) (fl : HTTPFlow) (n : Nat),
      tallyGet (respN (FlowSummarizer.init env) fl n).endpoints
          (fl.method ++ " " ++ fl.url) = n ∧
      tallyGet (respN (FlowSummarizer.init env) fl n).hosts fl.pretty_host = n := by
  refine ⟨by decide, by decide, ?_⟩
  intro env fl n
  induction n with
  | zero => exact ⟨rfl, rfl⟩
  | succ n ih =>
    refine ⟨?_, ?_⟩ <;>
      simp only [respN, response_endpoints, response_hosts, tallyGet_bump_self,
        ih.1, ih.2]

/-- C3: the summary assembled by `done` has both tallies sorted by key,
carries the accumulated call records unchanged and in order, and is
written to the configured output path, overwriting whatever was there;
a fresh summarizer with no environment override writes to `summary.json`. -/
theorem C3_done_sorted_summary (st : SummarizerState) (fs : String → Option Summary) :
    List.Pairwise (fun a b : String × Nat => a.1 ≤ b.1) (FlowSummarizer.done st).endpoints ∧
    List.Pairwise (fun a b : String × Nat => a.1 ≤ b.1) (FlowSummarizer.done st).hosts ∧
    (FlowSummarizer.done st).graphql_calls = st.graphql_calls ∧
    writeSummary fs st st.output_path = some (FlowSummarizer.done st) ∧
    (FlowSummarizer.init fun _ => none).output_path = "summary.json" := by
  refine ⟨keys_sorted_insertionSort st.endpoints, keys_sorted_insertionSort st.hosts,
    rfl, ?_, rfl⟩
  simp [writeSummary]

theorem process_item_wf (fl : HTTPFlow) (item : JValue) (h : itemWF item = true) :
    process_graphql_item fl item = some (specCallRecord fl item) := by
  rcases item with _ | b | n | s | es | fs
  · simp [itemWF] at h
  · simp [itemWF] at h
  · simp [itemWF] at h
  · simp [itemWF] at h
  · simp [itemWF] at h
  · simp only [process_graphql_item, specCallRecord, dictGet, jGet]
    simp only [itemWF] at h
    rcases he : (fs.lookup "extensions").getD JValue.null with _ | b | n | s | es | efs
    · simp [JValue.truthy, jGet]
    · rw [he] at h
      simp at h
      simp [JValue.truthy, h, jGet]
    · rw [he] at h
      simp at h
      simp [JValue.truthy, h, jGet]
    · rw [he] at h
      simp at h
      simp [JValue.truthy, h, jGet]
    · rw [he] at h
      simp at h
      simp [JValue.truthy, h, jGet]
    · rw [he] at h
      have h' : (match efs.lookup "persistedQuery" with
          | some (JValue.obj pfs) => true
          | some _ => false
          | none => true) = true := h
      rcases hpq : efs.lookup "persistedQuery" with _ | pq
      · rcases efs with _ | ⟨q, qs⟩
        · simp [JValue.truthy, jGet, hpq, List.lookup]
        · simp [JValue.truthy, pyInOp, jGet, hpq]
      · rw [hpq] at h'
        rcases pq with _ | _ | _ | _ | _ | pfs
        · simp at h'
        · simp at h'
        · simp at h'
        · simp at h'
        · simp at h'
        · rcases efs with _ | ⟨q, qs⟩
          · simp [List.lookup] at hpq
          · simp [JValue.truthy, pyInOp, pySubscript, pyDictGet, dictGet, jGet, hpq]

theorem process_list_wf (fl : HTTPFlow) (items : List JValue)
    (h : ∀ it ∈ items, itemWF it = true) :
    process_graphql_list fl items = items.map (specCallRecord fl) := by
  induction items with
  | nil => rfl
  | cons it its ih =>
    have h1 := process_item_wf fl it (h it (by simp))
    simp [process_graphql_list, h1, ih (fun x hx => h x (by simp [hx]))]

/-- C1 counterexample: the body of `c1BadFlow` is a JSON array of exactly
one object, yet a `response` call appends zero records (not one): the
exception raised while reading the malformed `persistedQuery` value is
swallowed before the append. -/
theorem C1_counterexample :
    c1BadFlow.body
      = Body.json (.arr [.obj [("extensions", .obj [("persistedQuery", .num 5)])]]) ∧
    (FlowSummarizer.response (FlowSummarizer.init fun _ => none) c1BadFlow).graphql_calls
      = [] :=
  ⟨rfl, rfl⟩

/-- C1 (amended): for a flow whose path contains `/graphql` and whose body
parses as a JSON array of k objects, each with a well-formed `extensions`
value (falsy, or an object whose `persistedQuery` entry, when present, is
an object), `response` appends exactly k records in array order, each
carrying that item's `operationName`, `variables` and the hash under
`extensions.persistedQuery.sha256Hash` (null when absent), together with
the flow's host and path. -/
theorem C1_batch_appends_k_records (st : SummarizerState) (fl : HTTPFlow)
    (items : List JValue)
    (hpath : strContains fl.path "/graphql" = true)
    (hbody : fl.body = Body.json (JValue.arr items))
    (hwf : ∀ it ∈ items, itemWF it = true) :
    (FlowSummarizer.response st fl).graphql_calls
      = st.graphql_calls ++ items.map (specCallRecord fl) := by
  rw [response_calls st fl]
  simp [newCalls, hpath, hbody, process_list_wf fl items hwf]

/-- Witness for the amended C1 on a concrete two-item batch. -/
theorem C1_batch_appends_k_records_witness :
    (FlowSummarizer.response (FlowSummarizer.init fun _ => none) c1GoodFlow).graphql_calls
      = (FlowSummarizer.init fun _ => none).graphql_calls
        ++ ([.obj [("operationName", .str "Op1"), ("variables", .obj [("x", .num 1)]),
              ("extensions", .obj [("persistedQuery",
                .obj [("version", .num 1), ("sha256Hash", .str "abc")])])],
            .obj []] : List JValue).map (specCallRecord c1GoodFlow) :=
  C1_batch_appends_k_records (FlowSummarizer.init fun _ => none) c1GoodFlow _
    (by decide) rfl (by decide)

theorem process_list_abort (fl : HTTPFlow) (good : List JValue) (bad : JValue)
    (rest : List JValue)
    (hg : ∀ g ∈ good, (process_graphql_item fl g).isSome = true)
    (hb : process_graphql_item fl bad = none) :
    process_graphql_list fl (good ++ bad :: rest)
      = good.filterMap (process_graphql_item fl) := by
  induction good with
  | nil => simp [process_graphql_list, hb]
  | cons g gs ih =>
    have hs := hg g (by simp)
    rcases ho : process_graphql_item fl g with _ | r
    · rw [ho] at hs
      simp at hs
    · simp [process_graphql_list, ho, List.filterMap_cons,
        ih (fun x hx => hg x (by simp [hx]))]

theorem filterMap_length_all_some {α β : Type} (f : α → Option β) (l : List α)
    (h : ∀ a ∈ l, (f a).isSome = true) : (l.filterMap f).length = l.length := by
  induction l with
  | nil => rfl
  | cons a as ih =>
    have hs := h a (by simp)
    rcases ho : f a with _ | b
    · rw [ho] at hs
      simp at hs
    · simp [List.filterMap_cons, ho, ih (fun x hx => h x (by simp [hx]))]

/-- C10: batched extraction is not atomic.  If the body parses as a JSON
array `good ++ bad :: rest` where every item of `good` processes without
an exception and `bad` raises, then `response` appends exactly the records
of `good` (one per item, in order) and nothing for `bad` or any later
item, swallowing the error. -/
theorem C10_partial_batch (st : SummarizerState) (fl : HTTPFlow)
    (good : List JValue) (bad : JValue) (rest : List JValue)
    (hpath : strContains fl.path "/graphql" = true)
    (hbody : fl.body = Body.json (JValue.arr (good ++ bad :: rest)))
    (hg : ∀ g ∈ good, (process_graphql_item fl g).isSome = true)
    (hb : process_graphql_item fl bad = none) :
    (FlowSummarizer.response st fl).graphql_calls
      = st.graphql_calls ++ good.filterMap (process_graphql_item fl) ∧
    (good.filterMap (process_graphql_item fl)).length = good.length := by
  constructor
  · rw [response_calls st fl]
    simp [newCalls, hpath, hbody, process_list_abort fl good bad rest hg hb]
  · exact filterMap_length_all_some _ _ hg

/-- Witness for C10 on a concrete three-item batch with a malformed middle
item. -/
theorem C10_partial_batch_witness :
    (FlowSummarizer.response (FlowSummarizer.init fun _ => none) c10Flow).graphql_calls
      = (FlowSummarizer.init fun _ => none).graphql_calls
        ++ ([.obj [("operationName", .str "A")]] : List JValue).filterMap
            (process_graphql_item c10Flow) ∧
    (([.obj [("operationName", .str "A")]] : List JValue).filterMap
        (process_graphql_item c10Flow)).length
      = ([.obj [("operationName", .str "A")]] : List JValue).length :=
  C10_partial_batch (FlowSummarizer.init fun _ => none) c10Flow
    [.obj [("operationName", .str "A")]] (.num 3) [.obj [("operationName", .str "B")]]
    (by decide) rfl (by decide) rfl

theorem findMarkerLine_none (lines : List String)
    (h : ∀ l ∈ lines, strContains l markerStr = false) :
    findMarkerLine lines = none := by
  induction lines with
  | nil => rfl
  | cons l ls ih =>
    simp [findMarkerLine, h l (by simp), ih (fun x hx => h x (by simp [hx]))]

/-- C8: on a log file none of whose lines contains the marker substring,
the inspector scans everything and produces no output (and no crash),
whatever the JSON parser would have returned. -/
theorem C8_no_marker_no_output (loads : String → Option JValue)
    (lines : List String)
    (h : ∀ l ∈ lines, strContains l markerStr = false) :
    runAnalyzer loads lines = ([], false) := by
  simp [runAnalyzer, findMarkerLine_none lines h]

/-- Witness for C8 on a concrete marker-free log. -/
theorem C8_no_marker_no_output_witness :
    runAnalyzer (fun _ => none) ["hello world", "", "response: PAYLOAD"]
      = ([], false) :=
  C8_no_marker_no_output (fun _ => none) ["hello world", "", "response: PAYLOAD"]
    (by decide)

theorem describeField_not_comp (k : String) (v : JValue) :
    OutLine.isComp (describeField k v) = false := by
  cases v <;> rfl

theorem countP_describe_zero (fs : List (String × JValue)) :
    (fs.map fun p => describeField p.1 p.2).countP OutLine.isComp = 0 := by
  induction fs with
  | nil => rfl
  | cons p ps ih => simp [List.countP_cons, describeField_not_comp, ih]

theorem printComps_objs (comps : List JValue)
    (h : ∀ c ∈ comps, ∃ fs, c = JValue.obj fs) :
    ∀ i, (printComps i comps).2 = false ∧
      (printComps i comps).1.countP OutLine.isComp = comps.length ∧
      (printComps i comps).1.length = comps.length + (comps.map numFields).sum := by
  induction comps with
  | nil =>
    intro i
    simp [printComps]
  | cons c cs ih =>
    intro i
    obtain ⟨fs, rfl⟩ := h c (by simp)
    obtain ⟨ih1, ih2, ih3⟩ := ih (fun x hx => h x (by simp [hx])) (i + 1)
    refine ⟨?_, ?_, ?_⟩
    · simp [printComps, printComp, ih1]
    · simp [printComps, printComp, List.countP_cons, List.countP_append,
        countP_describe_zero, OutLine.isComp, ih2]
      intro a b _
      exact describeField_not_comp a b
    · simp [printComps, printComp, numFields, ih3]
      omega

/-- C6 counterexample: for one component whose only field is the tag
`__typename`, the claim predicts a typename line and zero description
lines, but the code also prints a description line for `__typename`
itself (the field loop does not skip the variant tag): the run ends with
three output lines, the last being the `__typename` field description. -/
theorem C6_counterexample :
    runAnalyzer c6CexLoads c6CexLines
      = ([OutLine.found 1, OutLine.component 1 (JValue.str "Tile"),
          OutLine.fieldScalar "__typename" (JValue.str "Tile")], false) := rfl

/-- C6 (amended): for a log whose first marker line carries valid JSON
with N entries (all objects) in `data.nativeEntryPoint.visualComponents`,
the inspector reports exactly N components -- a `Found N` line, then per
component one typename line and one description line per field, the
variant tag field included -- and does not crash. -/
theorem C6_component_report (loads : String → Option JValue)
    (lines : List String) (line js : String) (data : JValue)
    (comps : List JValue)
    (h1 : findMarkerLine lines = some line)
    (h2 : payloadOf line = some js)
    (h3 : loads js = some data)
    (h4 : componentsOf data = some (JValue.arr comps))
    (h5 : ∀ c ∈ comps, ∃ fs, c = JValue.obj fs) :
    (runAnalyzer loads lines).2 = false ∧
    (runAnalyzer loads lines).1.head? = some (OutLine.found comps.length) ∧
    (runAnalyzer loads lines).1.countP OutLine.isComp = comps.length ∧
    (runAnalyzer loads lines).1.length
      = 1 + comps.length + (comps.map numFields).sum := by
  obtain ⟨p1, p2, p3⟩ := printComps_objs comps h5 1
  refine ⟨?_, ?_, ?_, ?_⟩ <;>
    (simp [runAnalyzer, h1, processLine, h2, h3, afterParse, h4, pyLen, pyIter,
      List.countP_cons, OutLine.isComp, p1, p2, p3]
     try omega)

/-- Witness for the amended C6 on a concrete two-component payload. -/
theorem C6_component_report_witness :
    (runAnalyzer c6WitLoads c6WitLines).2 = false ∧
    (runAnalyzer c6WitLoads c6WitLines).1.head? = some (OutLine.found 2) ∧
    (runAnalyzer c6WitLoads c6WitLines).1.countP OutLine.isComp = 2 ∧
    (runAnalyzer c6WitLoads c6WitLines).1.length = 1 + 2 + 2 :=
  C6_component_report c6WitLoads c6WitLines
    "DEBUG: entryPoint(home-page) response: PAYLOAD6W" "PAYLOAD6W"
    (.obj [("data", .obj [("nativeEntryPoint", .obj [("visualComponents",
      .arr [.obj [("__typename", .str "Hero"), ("items", .arr [.num 1, .num 2])],
            .obj []])])])])
    [.obj [("__typename", .str "Hero"), ("items", .arr [.num 1, .num 2])], .obj []]
    rfl rfl rfl rfl
    (by
      intro c hc
      simp only [List.mem_cons, List.not_mem_nil, or_false] at hc
      rcases hc with rfl | rfl
      · exact ⟨_, rfl⟩
      · exact ⟨_, rfl⟩)

theorem printComps_crash (comps : List JValue) (c : JValue)
    (hc : c ∈ comps) (hobj : ∀ fs, c ≠ JValue.obj fs) :
    ∀ i, (printComps i comps).2 = true := by
  induction comps with
  | nil => cases hc
  | cons d ds ih =>
    intro i
    rcases List.mem_cons.mp hc with h | hmem
    · subst h
      have hd : printComp i c = none := by
        rcases hcc : c with _ | _ | _ | _ | _ | fs
        · rfl
        · rfl
        · rfl
        · rfl
        · rfl
        · exact absurd hcc (hobj fs)
      simp [printComps, hd]
    · rcases hp : printComp i d with _ | ls
      · simp [printComps, hp]
      · simp [printComps, hp, ih hmem (i + 1)]

/-- C9 (amended): the inspector's `except` catches only JSON decode
failures.  When the payload parses but its structure is bad -- a non-dict
(null included) met by `.get` along `data.nativeEntryPoint`, an unsized
`visualComponents` value, or a non-dict entry of the components list --
the run ends in an uncaught exception; a decode failure, by contrast, is
caught and never crashes the run.  (A sized non-dict `visualComponents`
value such as a string is iterated, not rejected: see the
counterexample.) -/
theorem C9_structure_uncaught (loads : String → Option JValue)
    (lines : List String) (line js : String) (data : JValue)
    (h1 : findMarkerLine lines = some line)
    (h2 : payloadOf line = some js)
    (h3 : loads js = some data)
    (h4 : badShape data) :
    (runAnalyzer loads lines).2 = true ∧
    (∀ loads2 : String → Option JValue, loads2 js = none →
      (runAnalyzer loads2 lines).2 = false) := by
  constructor
  · rcases h4 with h | ⟨v, hv, hl⟩ | ⟨comps, c, hcomp, hmem, hobj⟩
    · simp [runAnalyzer, h1, processLine, h2, h3, afterParse, h]
    · simp [runAnalyzer, h1, processLine, h2, h3, afterParse, hv, hl]
    · simp [runAnalyzer, h1, processLine, h2, h3, afterParse, hcomp, pyLen,
        pyIter, printComps_crash comps c hmem hobj 1]
  · intro loads2 hl2
    simp [runAnalyzer, h1, processLine, h2, hl2]

/-- Witness for the amended C9 at a concrete null-`data` payload. -/
theorem C9_structure_uncaught_witness :
    (runAnalyzer c9WitLoads c9WitLines).2 = true :=
  (C9_structure_uncaught c9WitLoads c9WitLines
    "DEBUG: entryPoint(home-page) response: PAYLOAD9W" "PAYLOAD9W"
    (.obj [("data", .null)]) rfl rfl rfl (Or.inl rfl)).1

/-- C9 counterexample: the field `visualComponents` along the navigated
path is present with the non-dict value `""`, yet the run completes with
no exception (`len("")` is `0` and the loop body never executes), printing
only `Found 0 components:` -- against the claim that any non-dict value
along the path raises an uncaught exception. -/
theorem C9_counterexample :
    runAnalyzer c9CexLoads c9CexLines = ([OutLine.found 0], false) := rfl
